import Mathlib

/-!
# Verification of `gns3server/compute/traceng/traceng_vm.py` (`TraceNGVM`)

Shallow embedding of the TraceNG VM process supervisor.  Python object state
becomes an explicit `TraceNGVM` record; each method becomes a function from a
state (and an environment capturing OS / asyncio behaviour such as process
exit codes, hostname resolution, and file-system failures) to a new state, a
list of observable side effects (`Event`), and an optional raised exception
(`PyError`).  Mutations performed before an exception is raised persist in the
returned state, exactly as attribute assignments do in Python.

Collaborators that live in this repository but outside the analysed source
file (`EthernetAdapter`, `NIOUDP`/`NIOTAP` capture methods, `BaseNode`'s
`close`/`stop`/`_create_local_udp_tunnel`) are modelled from the spec; each
such definition carries a doc comment saying so.
-/

namespace TraceNG

/-- Data of a UDP NIO / UDP tunnel endpoint: leased local port, remote port,
remote host (as in `nio_udp.py`: `lport`, `rport`, `rhost`). -/
structure NIOUDPData where
  lport : Nat
  rport : Nat
  rhost : String
deriving DecidableEq, Repr

/-- The NIO variants accepted by the TraceNG node: a UDP tunnel endpoint or a
host TAP device. -/
inductive NIOBase where
  | udp (d : NIOUDPData)
  | tap (device : String)
deriving DecidableEq, Repr

/-- A network attachment object.  Modelled from the spec: a NIO "carries an
independent `capturing` flag and an optional capture output path"
(`NIO.startPacketCapture` / `stopPacketCapture` live in `compute/nios`,
outside the analysed file). -/
structure NIO where
  base : NIOBase
  capturing : Bool
  pcap_output_file : Option String
deriving DecidableEq, Repr

/-- Modelled from the spec: `startPacketCapture` marks the NIO capturing with
the given output path. -/
def NIO.startPacketCapture (nio : NIO) (output_file : String) : NIO :=
  { nio with capturing := true, pcap_output_file := some output_file }

/-- Modelled from the spec: `stopPacketCapture` clears the capturing flag. -/
def NIO.stopPacketCapture (nio : NIO) : NIO :=
  { nio with capturing := false, pcap_output_file := none }

/-- Modelled from the spec: the `EthernetAdapter` created in
`TraceNGVM.__init__` is "one adapter with 1 Ethernet interface": a single
fixed port index 0 holding at most one NIO (`compute/adapters`, outside the
analysed file). -/
structure EthernetAdapter where
  nio0 : Option NIO
deriving DecidableEq, Repr

/-- Modelled from the spec: only port index 0 exists. -/
def EthernetAdapter.port_exists (_a : EthernetAdapter) (port_number : Nat) : Bool :=
  port_number == 0

/-- Modelled from the spec: returns the NIO attached to the port, if any. -/
def EthernetAdapter.get_nio (a : EthernetAdapter) (port_number : Nat) : Option NIO :=
  if port_number == 0 then a.nio0 else none

/-- Modelled from the spec: attaches a NIO, replacing any previous one. -/
def EthernetAdapter.add_nio (a : EthernetAdapter) (port_number : Nat) (nio : NIO) :
    EthernetAdapter :=
  if port_number == 0 then { a with nio0 := some nio } else a

/-- Modelled from the spec: detaches the NIO from the port. -/
def EthernetAdapter.remove_nio (a : EthernetAdapter) (port_number : Nat) : EthernetAdapter :=
  if port_number == 0 then { a with nio0 := none } else a

/-- A child process handle: pid and nullable exit code, as used through
`self._process.pid` / `self._process.returncode`. -/
structure Process where
  pid : Nat
  returncode : Option Int
deriving DecidableEq, Repr

/-- Python exceptions relevant to the analysed file.  The file itself only
ever raises `TraceNGError` (with a message); the OS-level exceptions are the
ones its `try/except` blocks catch. -/
inductive PyError where
  | tracengError (message : String)
  | processLookupError
  | osError (message : String)
  | timeoutError
  | typeError
deriving DecidableEq, Repr

/-- Observable side effects of the supervisor: logger calls, project event
emissions, uBridge interactions, UDP port lease releases, process signals,
and calls into the `BaseNode` layer. -/
inductive Event where
  | logInfo (message : String)
  | logError (message : String)
  | logWarning (message : String)
  | projectEmit (kind : String) (message : String)
  | stopUbridge
  | startUbridge
  | addUbridgeUdpConnection (bridge_name : String) (nio : NIO)
  | updateUbridgeUdpConnection (bridge_name : String) (nio : NIO)
  | ubridgeSend (command : String)
  | releaseUdpPort (port : Nat)
  | startWrapConsole
  | terminateSignal (pid : Nat)
  | killSignal (pid : Nat)
  | baseStop
  | monitorProcess (pid : Nat)
deriving DecidableEq, Repr

/-- The supervisor state: the fields assigned in `TraceNGVM.__init__` plus the
`BaseNode` fields the analysed methods read or write (`status`,
`command_line`, the `_closed` flag behind `super().close()`, and the
`ubridge` availability flag behind `self.ubridge`). -/
structure TraceNGVM where
  status : String
  command_line : String
  process : Option Process
  started : Bool
  traceng_stdout_file : String
  local_udp_tunnel : Option (NIOUDPData × NIOUDPData)
  ethernet_adapter : EthernetAdapter
  closed : Bool
  ubridge : Bool
deriving DecidableEq, Repr

/-- `TraceNGVM.__init__`: process handle `None`, `_started = False`, empty
stdout file path, no tunnel, a fresh single-port adapter.  The `BaseNode`
fields are modelled from the spec: initial `status` is `stopped`, no command
line recorded yet, not closed, bridging helper not started. -/
def TraceNGVM.init : TraceNGVM :=
  { status := "stopped"
    command_line := ""
    process := none
    started := false
    traceng_stdout_file := ""
    local_udp_tunnel := none
    ethernet_adapter := { nio0 := none }
    closed := false
    ubridge := false }

/-- `TraceNGVM.is_running`: true iff `self._process` exists and
`self._process.returncode is None`. -/
def TraceNGVM.is_running (vm : TraceNGVM) : Bool :=
  match vm.process with
  | some p => p.returncode.isNone
  | none => false

/-- Equality of `Except` values is decidable when both payload types have
decidable equality. -/
instance {ε α : Type} [DecidableEq ε] [DecidableEq α] : DecidableEq (Except ε α) := fun a b =>
  match a, b with
  | Except.error x, Except.error y =>
      if h : x = y then isTrue (by rw [h]) else isFalse (fun hh => h (by injection hh))
  | Except.error _, Except.ok _ => isFalse (fun hh => Except.noConfusion hh)
  | Except.ok _, Except.error _ => isFalse (fun hh => Except.noConfusion hh)
  | Except.ok x, Except.ok y =>
      if h : x = y then isTrue (by rw [h]) else isFalse (fun hh => h (by injection hh))

/-- Result of one supervisor operation: the state after the call (carrying
every mutation made before any raise), the emitted side effects in order, and
the returned value or the raised exception. -/
structure OpResult (α : Type) where
  vm : TraceNGVM
  events : List Event
  result : Except PyError α
deriving Repr, DecidableEq

/-- The bridge name `"TraceNG-{id}"` used for all uBridge commands; the node
id is opaque here. -/
def bridgeName : String := "TraceNG-id"

/-- `TraceNGVM._termination_callback(returncode)`: if `self._started`, flip
`_started` off, set `status` to `"stopped"`, clear the process handle, and —
only for a non-zero return code — emit one `log.error` project event whose
message carries the return code and the contents of the process log
(`read_traceng_stdout`, passed here as `logContents`); otherwise do nothing.
Always logs one info line first when started. -/
def TraceNGVM.termination_callback (vm : TraceNGVM) (logContents : String)
    (returncode : Int) : TraceNGVM × List Event :=
  if vm.started then
    let vm' := { vm with started := false, status := "stopped", process := none }
    let infoEv := Event.logInfo
      ("TraceNG process has stopped, return code: " ++ toString returncode)
    if returncode != 0 then
      (vm', [infoEv,
        Event.projectEmit "log.error"
          ("TraceNG process has stopped, return code: " ++ toString returncode
            ++ "\n" ++ logContents)])
    else
      (vm', [infoEv])
  else
    (vm, [])

/-- The project `log.error` emissions among a list of events. -/
def emittedErrors (events : List Event) : List Event :=
  events.filter fun e =>
    match e with
    | Event.projectEmit _ _ => true
    | _ => false

/-- The error message raised for an invalid port number:
`"Port {port_number} doesn't exist in adapter {adapter}"` (the adapter's
textual representation is not modelled). -/
def portMsg (port_number : Nat) : String :=
  "Port " ++ toString port_number ++ " doesn't exist in adapter"

/-- The error message raised by the capture operations for an unbound port:
`"Port {port_number} is not connected"`. -/
def notConnectedMsg (port_number : Nat) : String :=
  "Port " ++ toString port_number ++ " is not connected"

/-- The error message raised by `start_capture` for an already-capturing NIO:
`"Packet capture is already activated on port {port_number}"`. -/
def alreadyCapturingMsg (port_number : Nat) : String :=
  "Packet capture is already activated on port " ++ toString port_number

/-- Environment of `_build_command`: the resolved executable path, the console
port, the behaviour of `socket.gethostbyname` (`none` models a raised
`socket.gaierror`), and the endpoint pair `_create_local_udp_tunnel` would
return if the tunnel has to be created lazily (modelled from the spec: the
tunnel is "a pair of UDP endpoints", each a leased UDP port). -/
structure BuildEnv where
  traceng_path : String
  internal_console_port : Nat
  resolveHost : String → Option String
  newTunnel : NIOUDPData × NIOUDPData

/-- `TraceNGVM._build_command`: executable path, `-p` console port, `-m 1`,
`-i 1`, `-F`; creates the local UDP tunnel lazily if absent; then, since the
tunnel's first endpoint is a UDP NIO (`if nio and isinstance(nio, NIOUDP)`),
appends `-s` source port, `-c` destination port, and `-t` with the resolved
destination host, raising `TraceNGError` if resolution fails.  The lazy
tunnel assignment persists even when resolution fails afterwards. -/
def TraceNGVM.build_command (vm : TraceNGVM) (env : BuildEnv) : OpResult (List String) :=
  let command := [env.traceng_path, "-p", toString env.internal_console_port,
                  "-m", "1", "-i", "1", "-F"]
  let tunnel := vm.local_udp_tunnel.getD env.newTunnel
  let vm := { vm with local_udp_tunnel := some tunnel }
  let nio := tunnel.1
  match env.resolveHost nio.rhost with
  | some addr =>
      { vm := vm, events := [],
        result := .ok (command ++
          ["-s", toString nio.lport, "-c", toString nio.rport, "-t", addr]) }
  | none =>
      { vm := vm, events := [],
        result := .error (.tracengError ("Can't resolve hostname " ++ nio.rhost)) }

/-- The message logged and raised when the spawn (or the log-file open) inside
`start()` fails: `"Could not start TraceNG {path}: {e}\n{traceng_stdout}"`. -/
def startFailureMsg (path e logContents : String) : String :=
  "Could not start TraceNG " ++ path ++ ": " ++ e ++ "\n" ++ logContents

/-- Environment of `start()`: whether `_check_requirements()` raises (and its
message), the working directory, whether `open` on the log file raises
`OSError`, the outcome of `asyncio.create_subprocess_exec` (`.error` models a
raised `OSError`/`SubprocessError`), the log contents `read_traceng_stdout`
would return, and the command-construction environment. -/
structure StartEnv where
  build : BuildEnv
  requirementsFailure : Option String
  working_dir : String
  openLogFailure : Option String
  spawn : Except String Process
  logContents : String

/-- `TraceNGVM.start()`: runs `_check_requirements()` first (its
`TraceNGError` propagates even when the process is already running); if the
process is not running, reads the port-0 NIO, builds the command (whose
`TraceNGError` propagates un-wrapped), then inside `try`: records the stdout
file path, opens the log file, records `command_line`, spawns the process,
registers the monitor, starts uBridge, adds the bridge connection if a NIO is
attached, starts console wrapping, and finally sets `_started` and `status`;
an `OSError`/`SubprocessError` from `open` or the spawn is caught, logged and
re-raised as a `TraceNGError` carrying the captured log contents.  Note that
`command_line` is assigned after `open` succeeds and before the spawn. -/
def TraceNGVM.start (vm : TraceNGVM) (env : StartEnv) : OpResult Unit :=
  match env.requirementsFailure with
  | some msg => { vm := vm, events := [], result := .error (.tracengError msg) }
  | none =>
    if vm.is_running then
      { vm := vm, events := [], result := .ok () }
    else
      let nio := vm.ethernet_adapter.get_nio 0
      let r := vm.build_command env.build
      match r.result with
      | .error e => { vm := r.vm, events := r.events, result := .error e }
      | .ok command =>
        let vm := r.vm
        let vm := { vm with traceng_stdout_file := env.working_dir ++ "/traceng.log" }
        match env.openLogFailure with
        | some e =>
            let msg := startFailureMsg env.build.traceng_path e env.logContents
            { vm := vm, events := [Event.logError msg],
              result := .error (.tracengError msg) }
        | none =>
            let vm := { vm with command_line := String.intercalate " " command }
            match env.spawn with
            | .error e =>
                let msg := startFailureMsg env.build.traceng_path e env.logContents
                { vm := vm, events := [Event.logError msg],
                  result := .error (.tracengError msg) }
            | .ok proc =>
                let vm := { vm with process := some proc }
                let events := [Event.monitorProcess proc.pid, Event.startUbridge]
                let events := events ++
                  (match nio with
                   | some n => [Event.addUbridgeUdpConnection bridgeName n]
                   | none => [])
                let events := events ++ [Event.startWrapConsole]
                let vm := { vm with started := true, status := "started" }
                { vm := vm, events := events, result := .ok () }

/-- `_terminate_process`: logs an info line and sends the termination signal;
a `ProcessLookupError` (the process died already) is caught with `pass`, so
it has no observable effect beyond the attempt. -/
def terminateProcessEvents (p : Process) : List Event :=
  [Event.logInfo "Stopping TraceNG instance", Event.terminateSignal p.pid]

/-- Environment of `stop()`: whether `terminate` raises `ProcessLookupError`
(swallowed), whether the process exits within the 3-unit grace period (and
its exit code), whether the forced `kill` raises `OSError` (and its message),
and the exit code visible after the kill attempt (`none`: still running). -/
structure StopEnv where
  terminateRaisesLookup : Bool
  waitExitCode : Option Int
  killFailure : Option String
  rcAfterKill : Option Int

/-- The `if self.is_running():` block of `stop()`: graceful termination
(`ProcessLookupError` swallowed), a wait of at most 3 units for the exit
code, then escalation to `kill()` where an `OSError` is only logged and a
still-missing exit code only warned about.  Returns the state (the process
handle with whatever exit code became visible) and the emitted events. -/
def TraceNGVM.stopTerminationPhase (vm : TraceNGVM) (env : StopEnv) :
    TraceNGVM × List Event :=
  match vm.process with
  | some p =>
    if p.returncode.isNone then
      let events := terminateProcessEvents p
      match env.waitExitCode with
      | some rc =>
          ({ vm with process := some { p with returncode := some rc } }, events)
      | none =>
          let events := events ++ [Event.killSignal p.pid]
          let events :=
            match env.killFailure with
            | some e => events ++ [Event.logError ("Cannot stop the TraceNG process: " ++ e)]
            | none => events
          match env.rcAfterKill with
          | some rc =>
              ({ vm with process := some { p with returncode := some rc } }, events)
          | none =>
              (vm, events ++ [Event.logWarning "TraceNG VM is still running"])
    else (vm, [])
  | none => (vm, [])

/-- `TraceNGVM.stop()`: stops uBridge first; if the process is running, runs
the termination phase above; then unconditionally clears the process handle
and `_started` and calls `super().stop()` (modelled from the spec: the base
layer records the node as stopped).  No exception escapes: every raiser
inside is wrapped in a `try/except`. -/
def TraceNGVM.stop (vm : TraceNGVM) (env : StopEnv) : OpResult Unit :=
  let r := vm.stopTerminationPhase env
  { vm := { r.1 with process := none, started := false, status := "stopped" }
    events := Event.stopUbridge :: r.2 ++ [Event.baseStop]
    result := .ok () }

/-- `TraceNGVM.port_add_nio_binding(port_number, nio)`: raises the
port-does-not-exist `TraceNGError` for an invalid port; when running,
registers the NIO with uBridge over the tunnel's bridge-facing endpoint
(`self._local_udp_tunnel[1]`, a `TypeError` if no tunnel exists); then
attaches the NIO and returns it. -/
def TraceNGVM.port_add_nio_binding (vm : TraceNGVM) (port_number : Nat) (nio : NIO) :
    OpResult NIO :=
  if !(vm.ethernet_adapter.port_exists port_number) then
    { vm := vm, events := [], result := .error (.tracengError (portMsg port_number)) }
  else
    let bridgeEvents :=
      if vm.is_running then
        match vm.local_udp_tunnel with
        | some _ => Except.ok [Event.addUbridgeUdpConnection bridgeName nio]
        | none => Except.error PyError.typeError
      else Except.ok []
    match bridgeEvents with
    | .error e => { vm := vm, events := [], result := .error e }
    | .ok evs =>
        { vm := { vm with ethernet_adapter := vm.ethernet_adapter.add_nio port_number nio }
          events := evs ++ [Event.logInfo "nio added to port"]
          result := .ok nio }

/-- `TraceNGVM.port_update_nio_binding(port_number, nio)`: same port
validation; when running, re-registers the bridge connection; never touches
the adapter's stored NIO. -/
def TraceNGVM.port_update_nio_binding (vm : TraceNGVM) (port_number : Nat) (nio : NIO) :
    OpResult Unit :=
  if !(vm.ethernet_adapter.port_exists port_number) then
    { vm := vm, events := [], result := .error (.tracengError (portMsg port_number)) }
  else
    if vm.is_running then
      match vm.local_udp_tunnel with
      | some _ =>
          { vm := vm, events := [Event.updateUbridgeUdpConnection bridgeName nio]
            result := .ok () }
      | none => { vm := vm, events := [], result := .error PyError.typeError }
    else
      { vm := vm, events := [], result := .ok () }

/-- `TraceNGVM.port_remove_nio_binding(port_number)`: validates the port;
when running, asks uBridge to delete the bridge; releases the leased UDP port
if the detached NIO is a UDP one; detaches and returns the NIO (which is
`None` when nothing was attached). -/
def TraceNGVM.port_remove_nio_binding (vm : TraceNGVM) (port_number : Nat) :
    OpResult (Option NIO) :=
  if !(vm.ethernet_adapter.port_exists port_number) then
    { vm := vm, events := [], result := .error (.tracengError (portMsg port_number)) }
  else
    let events :=
      if vm.is_running then [Event.ubridgeSend ("bridge delete " ++ bridgeName)] else []
    let nio := vm.ethernet_adapter.get_nio port_number
    let events := events ++
      (match nio with
       | some n =>
         match n.base with
         | .udp d => [Event.releaseUdpPort d.lport]
         | _ => []
       | none => [])
    { vm := { vm with ethernet_adapter := vm.ethernet_adapter.remove_nio port_number }
      events := events ++ [Event.logInfo "nio removed from port"]
      result := .ok nio }

/-- `TraceNGVM.start_capture(port_number, output_file)`: validates the port;
then always inspects the NIO of port 0; raises if none is attached or it is
already capturing; otherwise marks it capturing with the output file and, if
the bridging helper is active, issues the start-capture command. -/
def TraceNGVM.start_capture (vm : TraceNGVM) (port_number : Nat) (output_file : String) :
    OpResult Unit :=
  if !(vm.ethernet_adapter.port_exists port_number) then
    { vm := vm, events := [], result := .error (.tracengError (portMsg port_number)) }
  else
    match vm.ethernet_adapter.get_nio 0 with
    | none =>
        { vm := vm, events := [],
          result := .error (.tracengError (notConnectedMsg port_number)) }
    | some nio =>
      if nio.capturing then
        { vm := vm, events := [],
          result := .error (.tracengError (alreadyCapturingMsg port_number)) }
      else
        let nio := nio.startPacketCapture output_file
        let vm := { vm with
          ethernet_adapter := { vm.ethernet_adapter with nio0 := some nio } }
        let events :=
          if vm.ubridge then
            [Event.ubridgeSend ("bridge start_capture " ++ bridgeName ++ " " ++ output_file)]
          else []
        { vm := vm, events := events ++ [Event.logInfo "starting packet capture"]
          result := .ok () }

/-- `TraceNGVM.stop_capture(port_number)`: validates the port; inspects the
NIO of port 0; raises if none is attached; otherwise clears the capturing
flag (no already-stopped check) and, if the bridging helper is active, issues
the stop-capture command. -/
def TraceNGVM.stop_capture (vm : TraceNGVM) (port_number : Nat) : OpResult Unit :=
  if !(vm.ethernet_adapter.port_exists port_number) then
    { vm := vm, events := [], result := .error (.tracengError (portMsg port_number)) }
  else
    match vm.ethernet_adapter.get_nio 0 with
    | none =>
        { vm := vm, events := [],
          result := .error (.tracengError (notConnectedMsg port_number)) }
    | some nio =>
        let nio := nio.stopPacketCapture
        let vm := { vm with
          ethernet_adapter := { vm.ethernet_adapter with nio0 := some nio } }
        let events :=
          if vm.ubridge then [Event.ubridgeSend ("bridge stop_capture " ++ bridgeName)]
          else []
        { vm := vm, events := events ++ [Event.logInfo "stopping packet capture"]
          result := .ok () }

/-- `TraceNGVM.close()`: `super().close()` is modelled from the spec — the
base layer reports work to do only on the first call (an idempotence flag),
so a second `close()` returns `False` immediately.  The first call releases
the port-0 NIO's leased UDP port if it is a UDP NIO, releases both local
tunnel endpoints and drops the tunnel if one was allocated, stops uBridge,
and force-terminates the process if it is still running; it returns `True`.
The process handle and `_started` are not touched here. -/
def TraceNGVM.close (vm : TraceNGVM) : OpResult Bool :=
  if vm.closed then
    { vm := vm, events := [], result := .ok false }
  else
    let vm1 := { vm with closed := true }
    let nioEvents :=
      match vm1.ethernet_adapter.get_nio 0 with
      | some n =>
        match n.base with
        | .udp d => [Event.releaseUdpPort d.lport]
        | _ => []
      | none => []
    let tunnelEvents :=
      match vm1.local_udp_tunnel with
      | some t => [Event.releaseUdpPort t.1.lport, Event.releaseUdpPort t.2.lport]
      | none => []
    let vm2 := { vm1 with local_udp_tunnel := none }
    let termEvents :=
      match vm2.process with
      | some p => if p.returncode.isNone then terminateProcessEvents p else []
      | none => []
    { vm := vm2
      events := nioEvents ++ tunnelEvents ++ [Event.stopUbridge] ++ termEvents
      result := .ok true }

/-- The well-formedness invariant maintained by the lifecycle: whenever the
process is running, the local UDP tunnel exists (`start()` creates the tunnel
in `_build_command` before spawning, and only `close()` drops it).  The code
dereferences `self._local_udp_tunnel[1]` under `is_running` relying on it. -/
def TraceNGVM.tunnelInv (vm : TraceNGVM) : Prop :=
  vm.is_running = true → vm.local_udp_tunnel.isSome = true

/-! ## Concrete fixtures for witnesses and counterexamples -/

/-- A local tunnel endpoint: leased port 10001, remote port 10002. -/
def tunnelLocal : NIOUDPData := { lport := 10001, rport := 10002, rhost := "remote.example" }

/-- The bridge-facing tunnel endpoint. -/
def tunnelBridge : NIOUDPData := { lport := 10002, rport := 10001, rhost := "127.0.0.1" }

/-- A sample UDP NIO to bind on port 0. -/
def nioA : NIO :=
  { base := .udp { lport := 20001, rport := 20002, rhost := "10.0.0.1" }
    capturing := false
    pcap_output_file := none }

/-- A supervisor state with a running child process (as left by a successful
`start()`): live process handle, `_started`, status `started`, tunnel
allocated. -/
def vmRunning : TraceNGVM :=
  { TraceNGVM.init with
      process := some { pid := 42, returncode := none }
      started := true
      status := "started"
      local_udp_tunnel := some (tunnelLocal, tunnelBridge) }

/-- A command-construction environment where only `"remote.example"`
resolves, to `127.0.0.1`. -/
def buildEnvSample : BuildEnv :=
  { traceng_path := "traceng"
    internal_console_port := 5000
    resolveHost := fun h => if h == "remote.example" then some "127.0.0.1" else none
    newTunnel := (tunnelLocal, tunnelBridge) }

/-- A `start()` environment where everything succeeds. -/
def startEnvOk : StartEnv :=
  { build := buildEnvSample
    requirementsFailure := none
    working_dir := "/tmp/node"
    openLogFailure := none
    spawn := .ok { pid := 43, returncode := none }
    logContents := "" }

/-- A `start()` environment where `_check_requirements()` raises. -/
def startEnvReqFail : StartEnv :=
  { startEnvOk with
      requirementsFailure := some "No path to a TraceNG executable has been set" }

/-- A `start()` environment where opening the log file raises `OSError`. -/
def startEnvOpenFail : StartEnv :=
  { startEnvOk with openLogFailure := some "EACCES" }

/-- A `start()` environment where the spawn raises. -/
def startEnvSpawnFail : StartEnv :=
  { startEnvOk with spawn := .error "ENOENT" }

/-- A `stop()` environment for a process that ignores graceful termination,
whose forced kill raises `OSError`, and that never yields an exit code. -/
def stopEnvStubborn : StopEnv :=
  { terminateRaisesLookup := false
    waitExitCode := none
    killFailure := some "EPERM"
    rcAfterKill := none }

/-! ## Helper lemmas -/

/-- `is_running` unpacked: a live handle with no exit code. -/
lemma TraceNGVM.is_running_iff (vm : TraceNGVM) :
    vm.is_running = true ↔ ∃ p, vm.process = some p ∧ p.returncode = none := by
  match hp : vm.process with
  | none => simp [TraceNGVM.is_running, hp]
  | some p => cases hr : p.returncode <;> simp [TraceNGVM.is_running, hp, hr]

/-- `_build_command` only touches the local tunnel field of the state. -/
lemma build_command_vm (vm : TraceNGVM) (env : BuildEnv) :
    (vm.build_command env).vm =
      { vm with local_udp_tunnel := some (vm.local_udp_tunnel.getD env.newTunnel) } := by
  unfold TraceNGVM.build_command
  cases henv : env.resolveHost (vm.local_udp_tunnel.getD env.newTunnel).1.rhost <;>
    simp [henv]

/-- The grace period of `stop()`'s wait for process termination
(`wait_for_process_termination(self._process, timeout=3)`). -/
def stopGracePeriod : Nat := 3

/-- Changing only the adapter leaves `is_running` untouched. -/
@[simp] lemma is_running_set_adapter (vm : TraceNGVM) (a : EthernetAdapter) :
    TraceNGVM.is_running { vm with ethernet_adapter := a } = vm.is_running := rfl

/-! ## Claims -/

/-- C1: when `_started` is true, the termination callback sets `status` to
`"stopped"`, clears `_started` and the process handle, and emits exactly one
error-level project event carrying the return code and the process log if and
only if the return code is non-zero; when `_started` is already false it
changes nothing and emits nothing. -/
theorem c1_termination_callback (vm : TraceNGVM) (logContents : String) (rc : Int) :
    (vm.started = true →
      (vm.termination_callback logContents rc).1.status = "stopped" ∧
      (vm.termination_callback logContents rc).1.started = false ∧
      (vm.termination_callback logContents rc).1.process = none ∧
      (emittedErrors (vm.termination_callback logContents rc).2 =
          [Event.projectEmit "log.error"
            ("TraceNG process has stopped, return code: " ++ toString rc
              ++ "\n" ++ logContents)]
        ↔ rc ≠ 0)) ∧
    (vm.started = false → vm.termination_callback logContents rc = (vm, [])) := by
  constructor
  · intro h
    by_cases hrc : rc = 0 <;>
      simp [TraceNGVM.termination_callback, h, hrc, emittedErrors]
  · intro h
    simp [TraceNGVM.termination_callback, h]

/-- Witness for C1: a concrete crash with return code 1 from a running state,
and the no-op on the freshly constructed state. -/
theorem c1_witness :
    (vmRunning.started = true ∧
      (vmRunning.termination_callback "boom" 1).1.status = "stopped") ∧
    (TraceNGVM.init.started = false ∧
      TraceNGVM.init.termination_callback "boom" 1 = (TraceNGVM.init, [])) :=
  ⟨⟨rfl, ((c1_termination_callback vmRunning "boom" 1).1 rfl).1⟩,
   ⟨rfl, (c1_termination_callback TraceNGVM.init "boom" 1).2 rfl⟩⟩

/-- C6: `is_running()` is true iff a process handle exists whose exit code is
unset; it is false right after construction, after `stop()` completes, and
after the termination callback observed a crash from a started state. -/
theorem c6_is_running (vm : TraceNGVM) (env : StopEnv) (logContents : String) (rc : Int) :
    (vm.is_running = true ↔ ∃ p, vm.process = some p ∧ p.returncode = none) ∧
    TraceNGVM.init.is_running = false ∧
    (vm.stop env).vm.is_running = false ∧
    (vm.started = true →
      (vm.termination_callback logContents rc).1.is_running = false) := by
  refine ⟨?_, rfl, ?_, fun h => ?_⟩
  · match hp : vm.process with
    | none => simp [TraceNGVM.is_running, hp]
    | some p => cases hr : p.returncode <;> simp [TraceNGVM.is_running, hp, hr]
  · simp [TraceNGVM.stop, TraceNGVM.is_running]
  · by_cases hrc : rc = 0 <;>
      simp [TraceNGVM.termination_callback, h, hrc, TraceNGVM.is_running]

/-- Witness for C6: the crash observation at return code 1 from the concrete
running state. -/
theorem c6_witness :
    vmRunning.started = true ∧
    (vmRunning.termination_callback "boom" 1).1.is_running = false :=
  ⟨rfl, (c6_is_running vmRunning stopEnvStubborn "boom" 1).2.2.2 rfl⟩

/-- C2: `stop()` always returns without raising (every internal raiser is
caught), with the process handle cleared, `_started` false and the node
stopped; its first action is tearing down uBridge; when the process was
running it sends graceful termination and, if no exit code appeared within
the grace period (3 units), escalates to a kill — in every environment,
including a kill raising `OSError` and a process that never yields an exit
code. -/
theorem c2_stop (vm : TraceNGVM) (env : StopEnv) :
    stopGracePeriod = 3 ∧
    (vm.stop env).result = .ok () ∧
    (vm.stop env).vm.process = none ∧
    (vm.stop env).vm.started = false ∧
    (vm.stop env).vm.status = "stopped" ∧
    (vm.stop env).events.head? = some Event.stopUbridge ∧
    (∀ p, vm.process = some p → p.returncode = none →
      Event.terminateSignal p.pid ∈ (vm.stop env).events ∧
      (env.waitExitCode = none → Event.killSignal p.pid ∈ (vm.stop env).events)) := by
  refine ⟨rfl, rfl, rfl, rfl, rfl, rfl, fun p hp hrc => ?_⟩
  rcases hw : env.waitExitCode with _ | rc
  · rcases hk : env.killFailure with _ | e <;> rcases hr : env.rcAfterKill with _ | rc2 <;>
      exact ⟨by simp [TraceNGVM.stop, TraceNGVM.stopTerminationPhase, hp, hrc,
                      terminateProcessEvents, hw, hk, hr],
             fun _ => by simp [TraceNGVM.stop, TraceNGVM.stopTerminationPhase, hp, hrc,
                               terminateProcessEvents, hw, hk, hr]⟩
  · refine ⟨?_, fun h => ?_⟩
    · simp [TraceNGVM.stop, TraceNGVM.stopTerminationPhase, hp, hrc,
            terminateProcessEvents, hw]
    · simp_all

/-- Witness for C2: the concrete running state with a process that ignores
the termination signal, a kill that raises `OSError`, and no exit code. -/
theorem c2_witness :
    vmRunning.process = some { pid := 42, returncode := none } ∧
    (vmRunning.stop stopEnvStubborn).result = .ok () ∧
    (vmRunning.stop stopEnvStubborn).vm.process = none ∧
    (vmRunning.stop stopEnvStubborn).vm.started = false ∧
    Event.terminateSignal 42 ∈ (vmRunning.stop stopEnvStubborn).events ∧
    Event.killSignal 42 ∈ (vmRunning.stop stopEnvStubborn).events := by
  have h := c2_stop vmRunning stopEnvStubborn
  have hm := h.2.2.2.2.2.2 { pid := 42, returncode := none } rfl rfl
  exact ⟨rfl, h.2.1, h.2.2.1, h.2.2.2.1, hm.1, hm.2 rfl⟩

/-- C3: for every port number other than 0, `port_add_nio_binding`,
`port_update_nio_binding`, `port_remove_nio_binding`, `start_capture` and
`stop_capture` all raise the port-does-not-exist `TraceNGError` and leave the
state untouched with no side effects. -/
theorem c3_invalid_port (vm : TraceNGVM) (port : Nat) (hport : port ≠ 0)
    (nio : NIO) (output_file : String) :
    vm.port_add_nio_binding port nio =
      { vm := vm, events := [], result := .error (.tracengError (portMsg port)) } ∧
    vm.port_update_nio_binding port nio =
      { vm := vm, events := [], result := .error (.tracengError (portMsg port)) } ∧
    vm.port_remove_nio_binding port =
      { vm := vm, events := [], result := .error (.tracengError (portMsg port)) } ∧
    vm.start_capture port output_file =
      { vm := vm, events := [], result := .error (.tracengError (portMsg port)) } ∧
    vm.stop_capture port =
      { vm := vm, events := [], result := .error (.tracengError (portMsg port)) } := by
  have h : vm.ethernet_adapter.port_exists port = false := by
    simp [EthernetAdapter.port_exists, hport]
  refine ⟨?_, ?_, ?_, ?_, ?_⟩ <;>
    simp [TraceNGVM.port_add_nio_binding, TraceNGVM.port_update_nio_binding,
          TraceNGVM.port_remove_nio_binding, TraceNGVM.start_capture,
          TraceNGVM.stop_capture, h]

/-- Witness for C3 at port 5 on the concrete running state. -/
theorem c3_witness :
    (5 : Nat) ≠ 0 ∧
    vmRunning.start_capture 5 "/tmp/cap.pcap" =
      { vm := vmRunning, events := [], result := .error (.tracengError (portMsg 5)) } :=
  ⟨by decide,
   (c3_invalid_port vmRunning 5 (by decide) nioA "/tmp/cap.pcap").2.2.2.1⟩

/-- C4: with the local tunnel's local endpoint at ports 10001/10002, the
built command is exactly the executable path, `-p` console port, `-m 1`,
`-i 1`, `-F`, then `-s 10001`, `-c 10002` and `-t` with the resolved address
`127.0.0.1`; when resolution fails, command building raises the
resolution `TraceNGError`. -/
theorem c4_build_command (vm : TraceNGVM) (env : BuildEnv) (t2 : NIOUDPData) (h : String)
    (hT : vm.local_udp_tunnel = some ({ lport := 10001, rport := 10002, rhost := h }, t2)) :
    (env.resolveHost h = some "127.0.0.1" →
      vm.build_command env =
        { vm := vm, events := [],
          result := .ok [env.traceng_path, "-p", toString env.internal_console_port,
                         "-m", "1", "-i", "1", "-F",
                         "-s", "10001", "-c", "10002", "-t", "127.0.0.1"] }) ∧
    (env.resolveHost h = none →
      (vm.build_command env).result =
        .error (.tracengError ("Can't resolve hostname " ++ h))) := by
  constructor
  · intro hres
    cases vm
    simp_all [TraceNGVM.build_command]
    all_goals decide
  · intro hres
    simp [TraceNGVM.build_command, hT, hres]

/-- Witness for C4: the concrete running state and environment where
`remote.example` resolves to `127.0.0.1`. -/
theorem c4_witness :
    vmRunning.local_udp_tunnel = some (tunnelLocal, tunnelBridge) ∧
    buildEnvSample.resolveHost "remote.example" = some "127.0.0.1" ∧
    vmRunning.build_command buildEnvSample =
      { vm := vmRunning, events := [],
        result := .ok ["traceng", "-p", "5000", "-m", "1", "-i", "1", "-F",
                       "-s", "10001", "-c", "10002", "-t", "127.0.0.1"] } :=
  ⟨rfl, rfl,
   (c4_build_command vmRunning buildEnvSample tunnelBridge "remote.example" rfl).1 rfl⟩

/-- C5: binding a NIO on port 0 then unbinding returns that NIO, and the
adapter reports no NIO on port 0 afterwards (under the lifecycle invariant
that a running process has an allocated tunnel, which the code relies on when
registering the bridge connection). -/
theorem c5_roundtrip (vm : TraceNGVM) (nio : NIO) (hInv : vm.tunnelInv)
    (h0 : vm.ethernet_adapter.get_nio 0 = none) :
    (vm.port_add_nio_binding 0 nio).result = .ok nio ∧
    ((vm.port_add_nio_binding 0 nio).vm.port_remove_nio_binding 0).result = .ok (some nio) ∧
    ((vm.port_add_nio_binding 0 nio).vm.port_remove_nio_binding
        0).vm.ethernet_adapter.get_nio 0 = none := by
  by_cases hr : vm.is_running = true
  · obtain ⟨t, ht⟩ := Option.isSome_iff_exists.1 (hInv hr)
    refine ⟨?_, ?_, ?_⟩ <;>
      simp [TraceNGVM.port_add_nio_binding, TraceNGVM.port_remove_nio_binding,
            EthernetAdapter.port_exists, EthernetAdapter.add_nio,
            EthernetAdapter.get_nio, EthernetAdapter.remove_nio, hr, ht]
  · rw [Bool.not_eq_true] at hr
    refine ⟨?_, ?_, ?_⟩ <;>
      simp [TraceNGVM.port_add_nio_binding, TraceNGVM.port_remove_nio_binding,
            EthernetAdapter.port_exists, EthernetAdapter.add_nio,
            EthernetAdapter.get_nio, EthernetAdapter.remove_nio, hr]

/-- Witness for C5 on the freshly constructed state and the sample NIO. -/
theorem c5_witness :
    TraceNGVM.init.ethernet_adapter.get_nio 0 = none ∧
    (TraceNGVM.init.port_add_nio_binding 0 nioA).result = .ok nioA ∧
    ((TraceNGVM.init.port_add_nio_binding 0 nioA).vm.port_remove_nio_binding
        0).result = .ok (some nioA) ∧
    ((TraceNGVM.init.port_add_nio_binding 0 nioA).vm.port_remove_nio_binding
        0).vm.ethernet_adapter.get_nio 0 = none := by
  have h := c5_roundtrip TraceNGVM.init nioA
    (fun hcontra => by simp [TraceNGVM.init, TraceNGVM.is_running] at hcontra) rfl
  exact ⟨rfl, h.1, h.2.1, h.2.2⟩

/-- A state with the sample NIO bound on port 0 and nothing running. -/
def vmWithNio : TraceNGVM :=
  { TraceNGVM.init with ethernet_adapter := { nio0 := some nioA } }

/-- C7: on the valid port 0, `start_capture` fails when no NIO is attached or
when the attached NIO already captures; after a successful `start_capture` a
second one fails; `stop_capture` fails when no NIO is attached, and after a
successful `start_capture` it succeeds and clears the capturing flag — for
every state, hence independent of whether the process is running. -/
theorem c7_capture (vm : TraceNGVM) (nio : NIO) (output_file : String) :
    (vm.ethernet_adapter.get_nio 0 = none →
      vm.start_capture 0 output_file =
        { vm := vm, events := [], result := .error (.tracengError (notConnectedMsg 0)) } ∧
      vm.stop_capture 0 =
        { vm := vm, events := [], result := .error (.tracengError (notConnectedMsg 0)) }) ∧
    (vm.ethernet_adapter.get_nio 0 = some nio →
      (nio.capturing = true →
        vm.start_capture 0 output_file =
          { vm := vm, events := [],
            result := .error (.tracengError (alreadyCapturingMsg 0)) }) ∧
      (nio.capturing = false →
        (vm.start_capture 0 output_file).result = .ok () ∧
        ((vm.start_capture 0 output_file).vm.ethernet_adapter.get_nio 0).map
            NIO.capturing = some true ∧
        ((vm.start_capture 0 output_file).vm.start_capture 0 output_file).result =
          .error (.tracengError (alreadyCapturingMsg 0)) ∧
        ((vm.start_capture 0 output_file).vm.stop_capture 0).result = .ok () ∧
        (((vm.start_capture 0 output_file).vm.stop_capture
            0).vm.ethernet_adapter.get_nio 0).map NIO.capturing = some false)) := by
  refine ⟨fun h0 => ⟨?_, ?_⟩, fun hs => ⟨fun hc => ?_, fun hc => ?_⟩⟩
  · simp [TraceNGVM.start_capture, EthernetAdapter.port_exists, h0]
  · simp [TraceNGVM.stop_capture, EthernetAdapter.port_exists, h0]
  · simp [TraceNGVM.start_capture, EthernetAdapter.port_exists, hs, hc]
  · have hs' : vm.ethernet_adapter.nio0 = some nio := by
      simpa [EthernetAdapter.get_nio] using hs
    refine ⟨?_, ?_, ?_, ?_, ?_⟩ <;>
      simp [TraceNGVM.start_capture, TraceNGVM.stop_capture,
            EthernetAdapter.port_exists, EthernetAdapter.get_nio, hs', hc,
            NIO.startPacketCapture, NIO.stopPacketCapture]

/-- Witness for C7: start then start-again on the concrete bound state. -/
theorem c7_witness :
    vmWithNio.ethernet_adapter.get_nio 0 = some nioA ∧ nioA.capturing = false ∧
    (vmWithNio.start_capture 0 "/tmp/out.pcap").result = .ok () ∧
    ((vmWithNio.start_capture 0 "/tmp/out.pcap").vm.start_capture
        0 "/tmp/out.pcap").result = .error (.tracengError (alreadyCapturingMsg 0)) ∧
    (((vmWithNio.start_capture 0 "/tmp/out.pcap").vm.stop_capture
        0).vm.ethernet_adapter.get_nio 0).map NIO.capturing = some false := by
  have h := ((c7_capture vmWithNio nioA "/tmp/out.pcap").2 rfl).2 rfl
  exact ⟨rfl, rfl, h.1, h.2.2.1, h.2.2.2.2⟩

/-- C8: the first `close()` reports work done (`true`), releases the port-0
NIO's leased UDP port when it is a UDP NIO, releases both tunnel endpoints
and drops the tunnel when one was allocated, stops uBridge, and sends the
termination signal when the process is still running; a second `close()` does
none of that and reports `false`. -/
theorem c8_close (vm : TraceNGVM) (hc : vm.closed = false) :
    (vm.close).result = .ok true ∧
    (vm.close).vm.local_udp_tunnel = none ∧
    (∀ d, (vm.ethernet_adapter.get_nio 0).map NIO.base = some (NIOBase.udp d) →
      Event.releaseUdpPort d.lport ∈ (vm.close).events) ∧
    (∀ a b, vm.local_udp_tunnel = some (a, b) →
      Event.releaseUdpPort a.lport ∈ (vm.close).events ∧
      Event.releaseUdpPort b.lport ∈ (vm.close).events) ∧
    Event.stopUbridge ∈ (vm.close).events ∧
    (∀ p, vm.process = some p → p.returncode = none →
      Event.terminateSignal p.pid ∈ (vm.close).events) ∧
    (vm.close).vm.close =
      { vm := (vm.close).vm, events := [], result := .ok false } := by
  refine ⟨?_, ?_, fun d hd => ?_, fun a b hab => ?_, ?_, fun p hp hrc => ?_, ?_⟩
  · simp [TraceNGVM.close, hc]
  · simp [TraceNGVM.close, hc]
  · rcases hg : vm.ethernet_adapter.get_nio 0 with _ | n
    · rw [hg] at hd; cases hd
    · rw [hg] at hd
      have hb : n.base = NIOBase.udp d := by simpa using hd
      simp [TraceNGVM.close, hc, hg, hb]
  · constructor <;> simp [TraceNGVM.close, hc, hab]
  · simp [TraceNGVM.close, hc]
  · simp [TraceNGVM.close, hc, hp, hrc, terminateProcessEvents]
  · simp [TraceNGVM.close, hc]

/-- Witness for C8: closing the concrete running state with an allocated
tunnel, then closing again. -/
theorem c8_witness :
    vmRunning.closed = false ∧
    (vmRunning.close).result = .ok true ∧
    Event.releaseUdpPort 10001 ∈ (vmRunning.close).events ∧
    Event.releaseUdpPort 10002 ∈ (vmRunning.close).events ∧
    Event.terminateSignal 42 ∈ (vmRunning.close).events ∧
    (vmRunning.close).vm.close =
      { vm := (vmRunning.close).vm, events := [], result := .ok false } := by
  have h := c8_close vmRunning rfl
  have ht := h.2.2.2.1 tunnelLocal tunnelBridge rfl
  exact ⟨rfl, h.1, ht.1, ht.2, h.2.2.2.2.2.1 { pid := 42, returncode := none } rfl rfl,
         h.2.2.2.2.2.2⟩

/-- C9 (amended): provided `_check_requirements()` raises nothing, `start()`
on a running process is a no-op: it spawns nothing, changes no state, emits
nothing, and raises no error.  (The unamended claim fails because
`_check_requirements()` runs before the `is_running` guard.) -/
theorem c9_start_noop_when_running (vm : TraceNGVM) (env : StartEnv)
    (hreq : env.requirementsFailure = none) (hrun : vm.is_running = true) :
    vm.start env = { vm := vm, events := [], result := .ok () } := by
  simp [TraceNGVM.start, hreq, hrun]

/-- Witness for C9: the concrete running state under a healthy environment. -/
theorem c9_witness :
    startEnvOk.requirementsFailure = none ∧ vmRunning.is_running = true ∧
    vmRunning.start startEnvOk = { vm := vmRunning, events := [], result := .ok () } :=
  ⟨rfl, rfl, c9_start_noop_when_running vmRunning startEnvOk rfl rfl⟩

/-- C9 counterexample: `start()` calls `_check_requirements()` before the
`is_running` guard, so on a running process with an unusable executable it
raises `TraceNGError` rather than being a no-op that "raises no error". -/
theorem c9_counterexample :
    vmRunning.is_running = true ∧
    (vmRunning.start startEnvReqFail).result =
      .error (.tracengError "No path to a TraceNG executable has been set") := by
  constructor <;> rfl

/-- C10 (amended): with requirements passing, the process not running and the
command built, a spawn failure makes `start()` raise a `TraceNGError`
carrying the captured log, leaving `_started`, `status` and the process
handle untouched while `command_line` is updated to the joined command; a
log-file-open failure raises and preserves the same frame but leaves
`command_line` unchanged (the assignment sits after `open` succeeds). -/
theorem c10_start_error_path (vm : TraceNGVM) (env : StartEnv) (cmd : List String)
    (e : String) (hreq : env.requirementsFailure = none) (hrun : vm.is_running = false)
    (hcmd : (vm.build_command env.build).result = .ok cmd) :
    (env.openLogFailure = none → env.spawn = .error e →
      (vm.start env).result =
        .error (.tracengError (startFailureMsg env.build.traceng_path e env.logContents)) ∧
      (vm.start env).vm.started = vm.started ∧
      (vm.start env).vm.status = vm.status ∧
      (vm.start env).vm.process = vm.process ∧
      (vm.start env).vm.command_line = String.intercalate " " cmd) ∧
    (env.openLogFailure = some e →
      (vm.start env).result =
        .error (.tracengError (startFailureMsg env.build.traceng_path e env.logContents)) ∧
      (vm.start env).vm.started = vm.started ∧
      (vm.start env).vm.status = vm.status ∧
      (vm.start env).vm.process = vm.process ∧
      (vm.start env).vm.command_line = vm.command_line) := by
  constructor
  · intro hopen hspawn
    refine ⟨?_, ?_, ?_, ?_, ?_⟩ <;>
      simp [TraceNGVM.start, hreq, hrun, hcmd, hopen, hspawn, build_command_vm]
  · intro hopen
    refine ⟨?_, ?_, ?_, ?_, ?_⟩ <;>
      simp [TraceNGVM.start, hreq, hrun, hcmd, hopen, build_command_vm]

/-- Witness for C10: a concrete failing spawn from the fresh state. -/
theorem c10_witness :
    startEnvSpawnFail.requirementsFailure = none ∧
    TraceNGVM.init.is_running = false ∧
    (TraceNGVM.init.start startEnvSpawnFail).result =
      .error (.tracengError (startFailureMsg "traceng" "ENOENT" "")) ∧
    (TraceNGVM.init.start startEnvSpawnFail).vm.command_line =
      String.intercalate " " ["traceng", "-p", "5000", "-m", "1", "-i", "1", "-F",
        "-s", "10001", "-c", "10002", "-t", "127.0.0.1"] := by
  have h := (c10_start_error_path TraceNGVM.init startEnvSpawnFail
      ["traceng", "-p", "5000", "-m", "1", "-i", "1", "-F",
       "-s", "10001", "-c", "10002", "-t", "127.0.0.1"]
      "ENOENT" rfl rfl (by decide)).1 rfl rfl
  exact ⟨rfl, rfl, h.1, h.2.2.2.2⟩

/-- C10 counterexample: when opening the log file fails, `command_line` stays
at its prior value (here the empty string) and is not "updated to the joined
command", because the assignment executes only after `open` succeeds. -/
theorem c10_counterexample :
    TraceNGVM.init.is_running = false ∧
    (TraceNGVM.init.start startEnvOpenFail).result =
      .error (.tracengError (startFailureMsg "traceng" "EACCES" "")) ∧
    (TraceNGVM.init.start startEnvOpenFail).vm.command_line = "" ∧
    String.intercalate " " ["traceng", "-p", "5000", "-m", "1", "-i", "1", "-F",
      "-s", "10001", "-c", "10002", "-t", "127.0.0.1"] ≠ "" := by
  refine ⟨rfl, rfl, rfl, ?_⟩
  decide

end TraceNG
